import Mathlib

/-!
Verification of the exam-portal server core: a shallow embedding in Lean 4 of
the request handlers under `src/app/api` (send-otp, verify-otp, verify-roll,
exam/questions, exam/submit) together with the data model they act on.

JS conventions captured by the embedding:
* a JS value that may be `null`/`undefined` is an `Option`;
* a JS object with integer-like keys is an association list `List (Nat × _)`,
  and `Object.values` enumerates integer-like keys in ascending numeric order;
* `Array.prototype.includes` on a numeric array never matches `null` or
  `undefined`;
* `s1 || s2` on strings is `jsStrOr`: the empty string and `null`/`undefined`
  are falsy;
* times are integers in milliseconds (`Date.now()`), modelled as `Nat`;
* the Mongo collections are association lists; `findOne` is first-match
  lookup, `updateOne`/`findByIdAndUpdate` rewrite the matching entry,
  `deleteOne` erases the first entry with the matched id;
* JWT issuance/verification is abstracted: a handler parameter of type
  `Option P` stands for the outcome of `jwtVerify` (`none` = missing,
  malformed or expired token; `some p` = a token whose signed claims are
  `p`). The only signer of session tokens is the verify-roll handler, so
  session payloads carry exactly the claims it sets.
-/

namespace ExamPortal

/-! ## JS values and submitted-answer objects -/

/-- A submitted answer value: `some v` is the number `v`, `none` is `null`
(or a JSON `null` entry). -/
abbrev JsVal := Option Int

/-- A JS object with integer-like keys and `number | null` values, as the
submit body's `answers` object, represented as an association list in
insertion order. -/
abbrev JsObj := List (Nat × JsVal)

/-- Stable insertion of a key-value pair into a list sorted by key
(ascending); equal keys keep the earlier entry first. -/
def insertByKey (p : Nat × JsVal) : JsObj → JsObj
  | [] => [p]
  | q :: rest => if q.1 ≤ p.1 then q :: insertByKey p rest else p :: q :: rest

/-- Sort an association list by key, ascending (stable insertion sort). -/
def sortByKey : JsObj → JsObj
  | [] => []
  | p :: rest => insertByKey p (sortByKey rest)

/-- `Object.values` on an object whose own keys are integer-like: values in
ascending numeric key order. -/
def objectValues (o : JsObj) : List JsVal :=
  (sortByKey o).map Prod.snd

/-- `a || b` for a JS string that may be `null`/`undefined`: `a` when it is a
non-empty string, otherwise `b`. -/
def jsStrOr (a b : Option String) : Option String :=
  match a with
  | some s => if s = "" then b else some s
  | none => b

/-- JS falsiness of a string that may be `null`/`undefined`. -/
def jsFalsy : Option String → Bool
  | none => true
  | some s => s == ""

/-- JS `String.prototype.trim`: strip leading and trailing whitespace. -/
def jsTrim (s : String) : String :=
  ⟨((s.data.dropWhile Char.isWhitespace).reverse.dropWhile Char.isWhitespace).reverse⟩

/-- A JS `Map` with string keys, in insertion order (keys unique): `get`. -/
def jsMapGet {β : Type} (m : List (String × β)) (k : String) : Option β :=
  (m.find? (fun p => p.1 == k)).map Prod.snd

/-- JS `Map.set`: update in place when the key is present, else append. -/
def jsMapSet {β : Type} (m : List (String × β)) (k : String) (v : β) :
    List (String × β) :=
  if m.any (fun p => p.1 == k) then m.map (fun p => if p.1 == k then (k, v) else p)
  else m ++ [(k, v)]

/-! ## Question and form documents -/

/-- A stored question document (the `questions` entries of a form document,
answer key included). -/
structure QuestionDoc where
  questionId : String
  question : String
  options : List String
  correctAnswer : List Int
deriving Repr, DecidableEq

/-- A form document: `{formId, questions}`. -/
structure Form where
  formId : String
  questions : List QuestionDoc
deriving Repr, DecidableEq

/-- `QuestionModel.findOne({formId})`: first form whose `formId` matches. -/
def findForm (forms : List Form) (formId : String) : Option Form :=
  forms.find? (fun f => f.formId == formId)

/-- The submit handler's form lookup `findOne({formId: courseId?.toString()})`:
when the token carries no course id the filter value is `undefined`, which
matches no stored form (every form document has a string `formId`). -/
def resolveForm (forms : List Form) (courseId : Option Int) : Option Form :=
  match courseId with
  | none => none
  | some c => findForm forms (toString c)

/-! ## Scoring (`calculateMarks` in `app/api/exam/submit/route.ts`) -/

/-- `correctAnswer.includes(answerarr[i])`: `answerarr[i]` is `undefined` when
`i` is out of bounds (outer `none`) and may be `null` (inner `none`); neither
is an element of a numeric array. -/
def jsIncludes (ca : List Int) : Option JsVal → Bool
  | some (some v) => ca.contains v
  | _ => false

/-- `calculateMarks`: turn the submitted answers object into an array with
`Object.values`, then for each index `i` below `questions.length` add one
mark when `questions[i].correctAnswer.includes(answerarr[i])`. -/
def calculateMarks (questions : List QuestionDoc) (userAnswers : JsObj) : Int :=
  let answerarr := objectValues userAnswers
  (List.range questions.length).foldl
    (fun mark i =>
      match questions.get? i with
      | some q => if jsIncludes q.correctAnswer (answerarr.get? i) then mark + 1 else mark
      | none => mark)
    0

/-- Whether index `i` scores a point: the `i`-th question's answer set
contains the `i`-th submitted answer value. -/
def scoresAt (questions : List QuestionDoc) (answerarr : List JsVal) (i : Nat) : Bool :=
  match questions.get? i, answerarr.get? i with
  | some q, some (some v) => q.correctAnswer.contains v
  | _, _ => false

/-- The spec's scoring example: questions with answer keys `[2]` and
`[1,3]`. -/
def c1Questions : List QuestionDoc :=
  [⟨"q1", "Q1", [], [2]⟩, ⟨"q2", "Q2", [], [1, 3]⟩]

/-- Submitted answers `{0:2, 1:3}`. -/
def c1Answers1 : JsObj := [(0, some 2), (1, some 3)]

/-- Submitted answers `{0:1, 1:2}`. -/
def c1Answers2 : JsObj := [(0, some 1), (1, some 2)]

/-! ## Student records -/

/-- The `sessionData` subdocument of a student record. -/
structure SessionData where
  isActive : Bool
  startTime : Option Nat
  deviceId : Option String
  expiresAt : Option Nat
deriving Repr, DecidableEq

/-- A student document (the fields the handlers read or write). -/
structure StudentRec where
  name : String
  rollNo : String
  phone : Option String
  courseId : Option Int
  attempted : Bool
  marks : Option Int
  answers : JsObj
  sessionData : SessionData
deriving Repr, DecidableEq

/-- The student collection: Mongo `_id` paired with the document. -/
abbrev StudentDB := List (Nat × StudentRec)

/-- `Student.findById`. -/
def findById (db : StudentDB) (id : Nat) : Option StudentRec :=
  (db.find? (fun p => p.1 == id)).map Prod.snd

/-- `findOne({"Student RollNo": roll})`: first student whose roll number
matches; returns the `_id` with the document. -/
def findByRoll (db : StudentDB) (roll : String) : Option (Nat × StudentRec) :=
  db.find? (fun p => p.2.rollNo == roll)

/-- An update of the document with the given `_id`
(`updateOne({_id}, {$set: ...})` / `findByIdAndUpdate`). -/
def updateStudent (db : StudentDB) (id : Nat) (f : StudentRec → StudentRec) : StudentDB :=
  db.map (fun p => if p.1 == id then (p.1, f p.2) else p)

/-! ## Credentials -/

/-- The claims of a phone-verification token (issued by verify-otp):
`{phone, verified}`. -/
structure VerifyPayload where
  phone : String
  verified : Bool
deriving Repr, DecidableEq

/-- The claims of a session token. The only signer (the verify-roll handler)
sets `studentId, rollNumber, phone, name, sessionStart, sessionExpires,
courseId`; it sets no `formId` claim, so reading `payload.formId` yields
`undefined` unless some other signer added it — `formId` is kept as an
explicit `Option` field to model that property access. -/
structure SessionPayload where
  studentId : Nat
  rollNumber : String
  phone : String
  name : String
  sessionStart : Nat
  sessionExpires : Nat
  courseId : Option Int
  formId : Option String
deriving Repr, DecidableEq

/-! ## Submit handler (`app/api/exam/submit/route.ts`) -/

/-- The `$set` document of the submit handler's update:
`{marks, answers, attempted: true, "sessionData.isActive": false}`. -/
def submitUpdate (ans : JsObj) (marks : Int) (s : StudentRec) : StudentRec :=
  { s with
    marks := some marks
    answers := ans
    attempted := true
    sessionData := { s.sessionData with isActive := false } }

/-- The JSON body the submit handler returns, with its HTTP status. -/
structure SubmitResponse where
  status : Nat
  success : Bool
  message : String
  code : Option String := none
  totalQuestions : Option Nat := none
deriving Repr, DecidableEq

/-- `POST /api/exam/submit`: verify the session token, require an `answers`
body, look the student up by the token's `studentId`, refuse a second attempt
(`ALREADY_ATTEMPTED`), load the form for the token's `courseId`, score, and
store `{marks, answers, attempted:true, "sessionData.isActive":false}` in one
update. Returns the response and the updated student collection. -/
def submitPOST (students : StudentDB) (forms : List Form)
    (token : Option SessionPayload) (answers : Option JsObj) :
    SubmitResponse × StudentDB :=
  match token with
  | none => (⟨401, false, "Unauthorized access", none, none⟩, students)
  | some payload =>
    match answers with
    | none => (⟨400, false, "Answers are required", none, none⟩, students)
    | some ans =>
      match findById students payload.studentId with
      | none => (⟨404, false, "Student not found", none, none⟩, students)
      | some student =>
        if student.attempted then
          (⟨400, false, "Exam already attempted", some "ALREADY_ATTEMPTED", none⟩, students)
        else
          match resolveForm forms payload.courseId with
          | none => (⟨404, false, "Form not found for this course", none, none⟩, students)
          | some form =>
            let marks := calculateMarks form.questions ans
            (⟨200, true, "Exam submitted successfully", none, some form.questions.length⟩,
             updateStudent students payload.studentId (submitUpdate ans marks))

/-! ## Verify-roll handler (`app/api/auth/verify-roll/route.ts`) -/

/-- The verify-roll response: HTTP status, success flag, and the session
token set as a cookie on success (its signed claims). -/
structure RollResponse where
  status : Nat
  success : Bool
  message : String
  sessionToken : Option SessionPayload := none
deriving Repr, DecidableEq

/-- Five hours in milliseconds (`expiresAt.setHours(+5)`, cookie max-age). -/
def fiveHoursMs : Nat := 5 * 60 * 60 * 1000

/-- JS `substring(0, n)` over the character sequence. -/
def strTake (s : String) (n : Nat) : String :=
  ⟨s.data.take n⟩

/-- `req.headers.get("user-agent") || "unknown"`, truncated to 50 chars. -/
def deviceFrom (userAgent : Option String) : String :=
  strTake ((jsStrOr userAgent (some "unknown")).getD "unknown") 50

/-- The `$set` document of the verify-roll handler's update: the phone from
the verification token and a fresh `sessionData`. -/
def claimSessionUpdate (phone deviceId : String) (now expiresAt : Nat)
    (s : StudentRec) : StudentRec :=
  { s with
    phone := some phone
    sessionData :=
      { isActive := true
        startTime := some now
        deviceId := some deviceId
        expiresAt := some expiresAt } }

/-- `POST /api/auth/verify-roll`: require `rollNumber` and `token` in the
body, verify the phone-verification token, find the student by trimmed roll
number, refuse an attempted student, refuse (409) a student whose session is
active and unexpired, otherwise set the phone and a fresh
`sessionData = {isActive:true, startTime:now, deviceId, expiresAt:now+5h}`
and issue a session token. `verifiedTok` is the outcome of `jwtVerify` on the
body's `token` string. -/
def verifyRollPOST (students : StudentDB) (rollNumber tokenStr : Option String)
    (verifiedTok : Option VerifyPayload) (userAgent : Option String) (now : Nat) :
    RollResponse × StudentDB :=
  if jsFalsy rollNumber || jsFalsy tokenStr then
    (⟨400, false, "Roll number and token required", none⟩, students)
  else
    match verifiedTok with
    | none => (⟨401, false, "Verification token expired or invalid. Please verify your phone number again.", none⟩, students)
    | some payload =>
      if !payload.verified then
        (⟨401, false, "Phone number not verified", none⟩, students)
      else
        match findByRoll students (jsTrim (rollNumber.getD "")) with
        | none => (⟨404, false, "Student not found. Please check your roll number.", none⟩, students)
        | some (sid, student) =>
          if student.attempted then
            (⟨400, false, "You have already attempted this exam.", none⟩, students)
          else if student.sessionData.isActive && decide (now < student.sessionData.expiresAt.getD 0) then
            -- active session and `new Date(expiresAt || 0) > new Date()`
            (⟨409, false, "You already have an active session on another device. Only one device can be used at a time.", none⟩, students)
          else
            let expiresAt := now + fiveHoursMs
            let deviceId := deviceFrom userAgent
            let students' := updateStudent students sid
              (claimSessionUpdate payload.phone deviceId now expiresAt)
            let sessionTok : SessionPayload :=
              { studentId := sid
                rollNumber := student.rollNo
                phone := payload.phone
                name := student.name
                sessionStart := now
                sessionExpires := expiresAt
                courseId := student.courseId
                formId := none }
            (⟨200, true, "Login successful", some sessionTok⟩, students')

/-! ## Client-facing JSON values (question payloads) -/

/-- A JSON value, used for the question payloads sent to the client. -/
inductive Json where
  | null
  | num (n : Int)
  | str (s : String)
  | arr (elems : List Json)
  | obj (fields : List (String × Json))
deriving Repr

/-- The sanitization step of the questions handler: the object literal
`{id: q.questionId, question: q.question, options: q.options}` — exactly
three own properties, no answer key. -/
def toSafeJson (q : QuestionDoc) : Json :=
  Json.obj [("id", Json.str q.questionId), ("question", Json.str q.question),
            ("options", Json.arr (q.options.map Json.str))]

/-- A client question payload is sanitized when it is an object whose own
keys are exactly `id`, `question`, `options`. -/
def sanitizedQ : Json → Bool
  | Json.obj fields => fields.map Prod.fst == ["id", "question", "options"]
  | _ => false


/-- Whether a JSON object carries a field of the given name. -/
def hasKey (j : Json) (k : String) : Bool :=
  match j with
  | Json.obj fields => fields.any (fun p => p.1 == k)
  | _ => false

/-! ## Fisher-Yates shuffle (`shuffleArray`) -/

/-- Swap the elements at positions `i` and `j` (the destructuring swap
`[a[i], a[j]] = [a[j], a[i]]`); out-of-range indices leave the list alone
(they never occur in the handler). -/
def listSwap {α : Type} (l : List α) (i j : Nat) : List α :=
  match l.get? i, l.get? j with
  | some a, some b => (l.set i b).set j a
  | _, _ => l

/-- The loop of `shuffleArray`, from `i = n-1` down to `i = 1`; `rand i`
models `Math.floor(Math.random() * (i+1))`, reduced mod `i+1` so the swap
index lies in `[0, i]` as in the source. -/
def shuffleGo {α : Type} (rand : Nat → Nat) : Nat → List α → List α
  | 0, l => l
  | i + 1, l => shuffleGo rand i (listSwap l (i + 1) (rand (i + 1) % (i + 2)))

/-- `shuffleArray` (Fisher-Yates) with the random draws supplied by
`rand`. -/
def shuffleArray {α : Type} (arr : List α) (rand : Nat → Nat) : List α :=
  shuffleGo rand (arr.length - 1) arr

/-! ## Question cache and questions handler (`app/api/exam/questions/route.ts`) -/

/-- A `QUESTION_CACHE` entry: the shuffled sanitized questions and the time
they were stored. -/
structure CacheEntry where
  questions : List Json
  timestamp : Nat
deriving Repr

/-- The in-memory question cache: a JS `Map` in insertion order (keys are
unique; `set` on a present key updates in place, otherwise appends). -/
abbrev Cache := List (String × CacheEntry)

/-- Every question list held in the cache is fully sanitized. -/
def cacheSanitized (c : Cache) : Bool :=
  c.all (fun e => e.2.questions.all sanitizedQ)

/-- Cache TTL: one hour in milliseconds. -/
def CACHE_DURATION : Nat := 60 * 60 * 1000

/-- Whether the cache entry under `k` (if any) is younger than the TTL at
time `now`. -/
def entryFresh (c : List (String × CacheEntry)) (k : String) (now : Nat) : Bool :=
  match (c.find? (fun p => p.1 == k)).map Prod.snd with
  | some e => now - e.timestamp < CACHE_DURATION
  | none => true

/-- Cache capacity. -/
def MAX_CACHE_ENTRIES : Nat := 100

/-- `QUESTION_CACHE.get`. -/
def mapGet (m : Cache) (k : String) : Option CacheEntry := jsMapGet m k

/-- `QUESTION_CACHE.set`. -/
def mapSet (m : Cache) (k : String) (v : CacheEntry) : Cache := jsMapSet m k v

/-- The eviction step: when the map has grown past capacity, delete the
entry of the first key in iteration order (the oldest insertion); with the
map's unique keys this is the first entry. -/
def cacheEvict (m : Cache) : Cache :=
  if MAX_CACHE_ENTRIES < m.length then m.drop 1 else m

/-- The JSON body the questions handler returns, with its HTTP status and
the `metadata` fields the claims mention. -/
structure QResponse where
  status : Nat
  success : Bool
  message : String
  formId : Option String
  questions : List Json
  totalQuestions : Option Nat
  cacheHit : Option Bool
deriving Repr

/-- The cache-miss path of the questions handler: fetch the form, sanitize,
shuffle once, store in the cache (evicting past capacity), and answer with
`cacheHit: false`. -/
def questionsMiss (forms : List Form) (cache : Cache) (formId : String)
    (now : Nat) (rand : Nat → Nat) : QResponse × Cache :=
  match findForm forms formId with
  | none => (⟨404, false, "Form not found", none, [], none, none⟩, cache)
  | some form =>
    let safeQuestions := form.questions.map toSafeJson
    let shuffledQuestions := shuffleArray safeQuestions rand
    let cache' := cacheEvict (mapSet cache formId ⟨shuffledQuestions, now⟩)
    (⟨200, true, "", some formId, shuffledQuestions, some shuffledQuestions.length, some false⟩,
     cache')

/-- `GET /api/exam/questions`: verify the session token, resolve the form id
as `searchParams.get("formId") || payload.formId` (400 when falsy), answer
from the cache when the entry is younger than the TTL (`cacheHit: true`,
cache unchanged), otherwise run the miss path. -/
def questionsGET (forms : List Form) (cache : Cache) (token : Option SessionPayload)
    (queryFormId : Option String) (now : Nat) (rand : Nat → Nat) : QResponse × Cache :=
  match token with
  | none => (⟨401, false, "Unauthorized access", none, [], none, none⟩, cache)
  | some payload =>
    let fid := jsStrOr queryFormId payload.formId
    if jsFalsy fid then
      (⟨400, false, "Form ID is required", none, [], none, none⟩, cache)
    else
      let formId := fid.getD ""
      match mapGet cache formId with
      | some entry =>
        if now - entry.timestamp < CACHE_DURATION then
          (⟨200, true, "", some formId, entry.questions, some entry.questions.length, some true⟩,
           cache)
        else questionsMiss forms cache formId now rand
      | none => questionsMiss forms cache formId now rand

/-! ## OTP store and handlers -/

/-- An OTP document: `{phone (unique), countryCode, otp, createdAt}` with its
Mongo `_id`. -/
structure OtpRecord where
  id : Nat
  phone : String
  countryCode : String
  otp : String
  createdAt : Nat
deriving Repr, DecidableEq

/-- The regex `/^\d{10}$/`. -/
def isTenDigits (s : String) : Bool :=
  s.length == 10 && s.toList.all Char.isDigit

/-- The regex `/^\d{6}$/`. -/
def isSixDigits (s : String) : Bool :=
  s.length == 6 && s.toList.all Char.isDigit

/-- `OTP.findOne({phone, otp})`: first record matching both. -/
def findOtpMatch (otps : List OtpRecord) (phone otp : String) : Option OtpRecord :=
  otps.find? (fun r => r.phone == phone && r.otp == otp)

/-- `OTP.findOne({phone})`. -/
def findOtpByPhone (otps : List OtpRecord) (phone : String) : Option OtpRecord :=
  otps.find? (fun r => r.phone == phone)

/-- OTP validity window: five minutes in milliseconds. -/
def OTP_TTL_MS : Nat := 5 * 60 * 1000

/-- The verify-otp response; `token` is the phone-verification credential
issued on success (its signed claims `{phone, verified: true}`). -/
structure OtpVerifyResponse where
  status : Nat
  success : Bool
  message : String
  token : Option VerifyPayload := none
deriving Repr, DecidableEq

/-- `POST /api/auth/verify-otp`: require and format-check `phone` and `otp`,
find the matching record, refuse with `Invalid OTP` when absent, delete and
refuse when older than five minutes. On the remaining (would-be success)
branch the handler first dispatches the record deletion without awaiting it,
then evaluates `new SignJWT({...})` — but the `SignJWT` import is commented
out in this module, so the name is unbound, a `ReferenceError` is thrown,
and the catch block answers 500 `An error occurred while verifying OTP` with
no token. The store still loses the record (the un-awaited `deleteOne` was
already dispatched); the handler never returns a success response. -/
def verifyOtpPOST (otps : List OtpRecord) (phone otp : Option String) (now : Nat) :
    OtpVerifyResponse × List OtpRecord :=
  if jsFalsy phone || jsFalsy otp then
    (⟨400, false, "Phone number and OTP are required", none⟩, otps)
  else
    let ph := phone.getD ""
    let code := otp.getD ""
    if !(isTenDigits ph && isSixDigits code) then
      (⟨400, false, "Invalid phone number or OTP format", none⟩, otps)
    else
      match findOtpMatch otps ph code with
      | none => (⟨400, false, "Invalid OTP", none⟩, otps)
      | some r =>
        if OTP_TTL_MS < now - r.createdAt then
          (⟨400, false, "OTP has expired", none⟩, otps.eraseP (fun x => x.id == r.id))
        else
          (⟨500, false, "An error occurred while verifying OTP", none⟩,
           otps.eraseP (fun x => x.id == r.id))

/-! ## Send-otp handler (`app/api/auth/send-otp/route.ts`) -/

/-- A `rateLimitCache` entry. -/
structure RateEntry where
  count : Nat
  timestamp : Nat
deriving Repr, DecidableEq

/-- The in-memory rate-limit cache, keyed by `ip:phone`. -/
abbrev RateCache := List (String × RateEntry)

/-- Rate window: 15 minutes in milliseconds. -/
def RATE_LIMIT_WINDOW : Nat := 15 * 60 * 1000

/-- Maximum requests per window. -/
def MAX_REQUESTS : Nat := 5

/-- Minimum resend interval: 60 seconds in milliseconds. -/
def RESEND_MS : Nat := 60000

/-- `rateLimitCache.get`. -/
def rateGet (m : RateCache) (k : String) : Option RateEntry := jsMapGet m k

/-- `rateLimitCache.set`. -/
def rateSet (m : RateCache) (k : String) (v : RateEntry) : RateCache := jsMapSet m k v

/-- `req.headers.get('x-forwarded-for') || 'unknown'`. -/
def ipOf (xForwardedFor : Option String) : String :=
  (jsStrOr xForwardedFor (some "unknown")).getD "unknown"

/-- `updateOne` on the OTP collection: rewrite the first matching record. -/
def otpUpdateFirst : List OtpRecord → (OtpRecord → Bool) → (OtpRecord → OtpRecord) → List OtpRecord
  | [], _, _ => []
  | r :: rs, p, f => if p r then f r :: rs else r :: otpUpdateFirst rs p f

/-- `OTP.updateOne({phone}, {$set: {countryCode, otp, createdAt}}, {upsert:
true})`: overwrite the record for the phone, or insert a fresh one (with the
store-assigned `_id` `newId`). -/
def otpUpsert (otps : List OtpRecord) (phone cc code : String) (now : Nat) (newId : Nat) :
    List OtpRecord :=
  if otps.any (fun r => r.phone == phone) then
    otpUpdateFirst otps (fun r => r.phone == phone)
      (fun r => { r with countryCode := cc, otp := code, createdAt := now })
  else otps ++ [⟨newId, phone, cc, code, now⟩]

/-- The send-otp response. Both dispatch outcomes of the messaging call
return success, so the dispatch is not modelled. -/
structure SendResponse where
  status : Nat
  success : Bool
  message : String
deriving Repr, DecidableEq

/-- The part of the send-otp handler after the rate-limit bookkeeping: the
60-second resend check against the live record for the phone, then the
upsert of a fresh code. -/
def sendOtpAfterRate (rate : RateCache) (otps : List OtpRecord) (ph cc : String)
    (now : Nat) (newOtp : String) (newId : Nat) : SendResponse × RateCache × List OtpRecord :=
  match findOtpByPhone otps ph with
  | some existing =>
    if now - existing.createdAt < RESEND_MS then
      (⟨429, false, "Please wait before requesting another OTP"⟩, rate, otps)
    else
      (⟨200, true, "OTP sent successfully"⟩, rate, otpUpsert otps ph cc newOtp now newId)
  | none => (⟨200, true, "OTP sent successfully"⟩, rate, otpUpsert otps ph cc newOtp now newId)

/-- `POST /api/auth/send-otp`: validate the phone, update the sliding-window
rate counter keyed by `ip:phone` (429 at the cap), refuse a resend within 60
seconds of the live record, otherwise upsert a fresh code. `newOtp` is the
generated random code and `newId` the store-assigned id of an inserted
record. -/
def sendOtpPOST (rate : RateCache) (otps : List OtpRecord)
    (xForwardedFor phone countryCode : Option String)
    (now : Nat) (newOtp : String) (newId : Nat) : SendResponse × RateCache × List OtpRecord :=
  let ip := ipOf xForwardedFor
  let cc := countryCode.getD "+91"
  if jsFalsy phone || !(isTenDigits (phone.getD "")) then
    (⟨400, false, "Valid 10-digit phone number is required"⟩, rate, otps)
  else
    let ph := phone.getD ""
    let key := ip ++ ":" ++ ph
    match rateGet rate key with
    | some e =>
      if now - e.timestamp < RATE_LIMIT_WINDOW then
        if MAX_REQUESTS ≤ e.count then
          (⟨429, false, "Too many OTP requests. Please try again later."⟩, rate, otps)
        else
          sendOtpAfterRate (rateSet rate key ⟨e.count + 1, e.timestamp⟩) otps ph cc now newOtp newId
      else
        sendOtpAfterRate (rateSet rate key ⟨1, now⟩) otps ph cc now newOtp newId
    | none =>
      sendOtpAfterRate (rateSet rate key ⟨1, now⟩) otps ph cc now newOtp newId

/-! ## The server as a state machine over all five handlers -/

/-- The mutable server-side state the handlers touch: the three collections
of the record store and the two process-local caches (`forms` is read-only
here; no handler writes the question collection). -/
structure ServerState where
  students : StudentDB
  otps : List OtpRecord
  rate : RateCache
  qcache : Cache
  forms : List Form

/-- One server request, with its external inputs (current time, random
draws, token-verification outcomes). -/
inductive ServerOp where
  | sendOtp (xff phone countryCode : Option String) (now : Nat) (newOtp : String) (newId : Nat)
  | verifyOtp (phone otp : Option String) (now : Nat)
  | verifyRoll (rollNumber tokenStr : Option String) (verifiedTok : Option VerifyPayload)
      (userAgent : Option String) (now : Nat)
  | getQuestions (token : Option SessionPayload) (queryFormId : Option String)
      (now : Nat) (rand : Nat → Nat)
  | submit (token : Option SessionPayload) (answers : Option JsObj)

/-- The state transition of one request. -/
def applyOp (st : ServerState) : ServerOp → ServerState
  | .sendOtp xff phone cc now newOtp newId =>
    let r := sendOtpPOST st.rate st.otps xff phone cc now newOtp newId
    { st with rate := r.2.1, otps := r.2.2 }
  | .verifyOtp phone otp now =>
    { st with otps := (verifyOtpPOST st.otps phone otp now).2 }
  | .verifyRoll roll tokStr vtok ua now =>
    { st with students := (verifyRollPOST st.students roll tokStr vtok ua now).2 }
  | .getQuestions tok q now rand =>
    { st with qcache := (questionsGET st.forms st.qcache tok q now rand).2 }
  | .submit tok ans =>
    { st with students := (submitPOST st.students st.forms tok ans).2 }

/-! ## Concrete data used by the witnesses -/

/-- A concrete student, not yet attempted, no active session. -/
def demoStudent : StudentRec :=
  { name := "Asha"
    rollNo := "R100"
    phone := none
    courseId := some 110
    attempted := false
    marks := none
    answers := []
    sessionData := ⟨false, none, none, none⟩ }

/-- A one-student collection. -/
def demoStudents : StudentDB := [(7, demoStudent)]

/-- A concrete form for course 110. -/
def demoForm : Form := ⟨"110", c1Questions⟩

/-- A one-form collection for course 110. -/
def demoForms : List Form := [demoForm]

/-- A session payload as verify-roll issues it for `demoStudent`. -/
def demoSession : SessionPayload :=
  { studentId := 7
    rollNumber := "R100"
    phone := "9876543210"
    name := "Asha"
    sessionStart := 1000
    sessionExpires := 1000 + fiveHoursMs
    courseId := some 110
    formId := none }

/-- A student holding a stale session: still flagged active, expired at time
500. -/
def c4Student : StudentRec :=
  { demoStudent with sessionData := ⟨true, some 0, some "devA", some 500⟩ }

/-- A one-student collection holding `c4Student`. -/
def c4Students : StudentDB := [(7, c4Student)]

/-- A verified phone payload. -/
def c4Verify : VerifyPayload := ⟨"9876543210", true⟩

/-- A one-record OTP store: code 123456 for the demo phone, issued at 100. -/
def c8Otps : List OtpRecord := [⟨1, "9876543210", "+91", "123456", 100⟩]

/-- The session payload verify-roll issues at time 1000 for `demoStudent`:
`courseId` is embedded, no `formId` claim exists. -/
def demoIssuedSession : SessionPayload :=
  { studentId := 7
    rollNumber := "R100"
    phone := "9876543210"
    name := "Asha"
    sessionStart := 1000
    sessionExpires := 1000 + fiveHoursMs
    courseId := some 110
    formId := none }

end ExamPortal

open ExamPortal

/-! ## Scoring lemmas -/

lemma jsIncludes_eq_scoresAt (questions : List QuestionDoc) (answerarr : List JsVal)
    (i : Nat) (q : QuestionDoc) (hq : questions.get? i = some q) :
    jsIncludes q.correctAnswer (answerarr.get? i) = scoresAt questions answerarr i := by
  unfold scoresAt
  rw [hq]
  cases h : answerarr.get? i with
  | none => rfl
  | some v =>
    cases v with
    | none => rfl
    | some w => rfl

lemma foldl_congr_mem {α β : Type} {f g : β → α → β} (l : List α) (b : β)
    (h : ∀ b a, a ∈ l → f b a = g b a) : l.foldl f b = l.foldl g b := by
  induction l generalizing b with
  | nil => rfl
  | cons x xs ih =>
    simp only [List.foldl_cons]
    rw [h b x (by simp)]
    exact ih _ (fun b a ha => h b a (by simp [ha]))

lemma foldl_count (p : Nat → Bool) (l : List Nat) (c : Int) :
    l.foldl (fun mark i => if p i then mark + 1 else mark) c = c + l.countP p := by
  induction l generalizing c with
  | nil => simp
  | cons x xs ih =>
    simp only [List.foldl_cons, List.countP_cons, ih]
    by_cases hx : p x
    · simp only [hx, if_true]
      push_cast
      ring
    · simp only [hx, if_false]
      push_cast
      ring

/-- `calculateMarks` counts the indices `i` below the question count at which
the `i`-th question's correct-answer set contains the `i`-th value of the
submitted-answers object (in ascending key order). -/
lemma calculateMarks_eq_countP (questions : List QuestionDoc) (userAnswers : JsObj) :
    calculateMarks questions userAnswers =
      ((List.range questions.length).countP
        (scoresAt questions (objectValues userAnswers)) : Int) := by
  unfold calculateMarks
  rw [show (List.range questions.length).foldl
        (fun mark i =>
          match questions.get? i with
          | some q => if jsIncludes q.correctAnswer ((objectValues userAnswers).get? i) then mark + 1 else mark
          | none => mark) (0 : Int)
      = (List.range questions.length).foldl
        (fun mark i => if scoresAt questions (objectValues userAnswers) i then mark + 1 else mark) 0 from ?_]
  · rw [foldl_count]; ring
  · apply foldl_congr_mem
    intro mark i hi
    rw [List.mem_range] at hi
    obtain ⟨q, hq⟩ : ∃ q, questions.get? i = some q :=
      ⟨questions.get ⟨i, hi⟩, List.get?_eq_get hi⟩
    simp only [hq, jsIncludes_eq_scoresAt questions (objectValues userAnswers) i q hq]

/-! ## Claim C1 -/

/-- C1: for every canonical question list and submitted answers object, the
score computed at submission equals the number of indices `i` such that the
`i`-th question's correct-answer set contains the `i`-th submitted answer
value (positional correspondence by index, not by question id); in
particular, for questions `[{correctAnswer:[2]}, {correctAnswer:[1,3]}]` the
answers `{0:2, 1:3}` score 2 and the answers `{0:1, 1:2}` score 0. -/
theorem claim1_score_positional :
    (∀ (questions : List QuestionDoc) (userAnswers : JsObj),
      calculateMarks questions userAnswers =
        ((List.range questions.length).countP
          (scoresAt questions (objectValues userAnswers)) : Int))
    ∧ calculateMarks c1Questions c1Answers1 = 2
    ∧ calculateMarks c1Questions c1Answers2 = 0 :=
  ⟨calculateMarks_eq_countP, by decide, by decide⟩

/-! ## Claim C10 -/

/-- C10: `calculateMarks` is total and bounded: on every question list and
every submitted answers object (missing, extra or null entries included) the
result lies between 0 and the number of canonical questions inclusive. -/
theorem claim10_marks_bounded :
    ∀ (questions : List QuestionDoc) (userAnswers : JsObj),
      0 ≤ calculateMarks questions userAnswers ∧
      calculateMarks questions userAnswers ≤ (questions.length : Int) := by
  intro qs m
  rw [calculateMarks_eq_countP]
  refine ⟨by exact_mod_cast Nat.zero_le _, ?_⟩
  have h := List.countP_le_length (l := List.range qs.length)
    (p := scoresAt qs (objectValues m))
  rw [List.length_range] at h
  exact_mod_cast h

/-! ## Student-store lemmas -/

lemma findById_cons (k : Nat) (v : StudentRec) (rest : StudentDB) (id : Nat) :
    findById ((k, v) :: rest) id = if k = id then some v else findById rest id := by
  by_cases h : k = id
  · simp [findById, List.find?_cons_of_pos, h]
  · simp [findById, List.find?_cons_of_neg, h]

lemma updateStudent_cons (k : Nat) (v : StudentRec) (rest : StudentDB) (id : Nat)
    (f : StudentRec → StudentRec) :
    updateStudent ((k, v) :: rest) id f =
      (if k = id then (k, f v) else (k, v)) :: updateStudent rest id f := by
  by_cases h : k = id <;> simp [updateStudent, h]

lemma findById_updateStudent_self (db : StudentDB) (id : Nat) (f : StudentRec → StudentRec) :
    findById (updateStudent db id f) id = (findById db id).map f := by
  induction db with
  | nil => simp [findById, updateStudent]
  | cons p rest ih =>
    obtain ⟨k, v⟩ := p
    rw [updateStudent_cons]
    by_cases h : k = id
    · rw [if_pos h, findById_cons, findById_cons, if_pos h, if_pos h]
      rfl
    · rw [if_neg h, findById_cons, findById_cons, if_neg h, if_neg h, ih]

lemma findById_updateStudent_other (db : StudentDB) (id id' : Nat)
    (f : StudentRec → StudentRec) (h : id' ≠ id) :
    findById (updateStudent db id f) id' = findById db id' := by
  induction db with
  | nil => simp [findById, updateStudent]
  | cons p rest ih =>
    obtain ⟨k, v⟩ := p
    rw [updateStudent_cons]
    by_cases hk : k = id
    · have hk' : ¬ k = id' := fun hc => h (hc ▸ hk)
      rw [if_pos hk, findById_cons, findById_cons, if_neg hk', if_neg hk', ih]
    · rw [if_neg hk, findById_cons, findById_cons, ih]

/-! ## Claim C2 -/

/-- C2: with a valid session credential for a not-yet-attempted student (and
an existing form for the credential's course), the first submit succeeds
(storing the computed marks with `attempted := true` and
`sessionData.isActive := false`), and a second submit with the same
credential fails with status 400 and code `ALREADY_ATTEMPTED`, leaving the
student collection — the stored marks in particular — unchanged. -/
theorem claim2_submit_exactly_once (students : StudentDB) (forms : List Form)
    (p : SessionPayload) (ans : JsObj) (s : StudentRec) (form : Form)
    (hs : findById students p.studentId = some s)
    (hatt : s.attempted = false)
    (hform : resolveForm forms p.courseId = some form) :
    (submitPOST students forms (some p) (some ans)).1.success = true ∧
    (submitPOST students forms (some p) (some ans)).1.status = 200 ∧
    findById (submitPOST students forms (some p) (some ans)).2 p.studentId =
      some (submitUpdate ans (calculateMarks form.questions ans) s) ∧
    (submitPOST (submitPOST students forms (some p) (some ans)).2 forms
        (some p) (some ans)).1.status = 400 ∧
    (submitPOST (submitPOST students forms (some p) (some ans)).2 forms
        (some p) (some ans)).1.code = some "ALREADY_ATTEMPTED" ∧
    (submitPOST (submitPOST students forms (some p) (some ans)).2 forms
        (some p) (some ans)).2 = (submitPOST students forms (some p) (some ans)).2 := by
  have hrun1 : submitPOST students forms (some p) (some ans) =
      (⟨200, true, "Exam submitted successfully", none, some form.questions.length⟩,
       updateStudent students p.studentId
         (submitUpdate ans (calculateMarks form.questions ans))) := by
    simp [submitPOST, hs, hatt, hform]
  have hfind1 : findById (submitPOST students forms (some p) (some ans)).2 p.studentId =
      some (submitUpdate ans (calculateMarks form.questions ans) s) := by
    rw [hrun1]
    simp only [findById_updateStudent_self, hs, Option.map_some']
  have hattempted : (submitUpdate ans (calculateMarks form.questions ans) s).attempted = true := rfl
  have hrun2gen : ∀ db : StudentDB,
      findById db p.studentId = some (submitUpdate ans (calculateMarks form.questions ans) s) →
      submitPOST db forms (some p) (some ans) =
        (⟨400, false, "Exam already attempted", some "ALREADY_ATTEMPTED", none⟩, db) := by
    intro db hdb
    simp [submitPOST, hdb, hattempted]
  have hrun2 := hrun2gen (submitPOST students forms (some p) (some ans)).2 hfind1
  exact ⟨by rw [hrun1], by rw [hrun1], hfind1, by rw [hrun2], by rw [hrun2], by rw [hrun2]⟩

/-- Witness for C2: the double submit at a concrete student, form and answer
map. -/
theorem claim2_submit_exactly_once_witness :
    findById demoStudents demoSession.studentId = some demoStudent ∧
    demoStudent.attempted = false ∧
    resolveForm demoForms demoSession.courseId = some demoForm ∧
    ((submitPOST demoStudents demoForms (some demoSession) (some c1Answers1)).1.success = true ∧
     (submitPOST demoStudents demoForms (some demoSession) (some c1Answers1)).1.status = 200 ∧
     findById (submitPOST demoStudents demoForms (some demoSession) (some c1Answers1)).2
         demoSession.studentId =
       some (submitUpdate c1Answers1 (calculateMarks demoForm.questions c1Answers1) demoStudent) ∧
     (submitPOST (submitPOST demoStudents demoForms (some demoSession) (some c1Answers1)).2
         demoForms (some demoSession) (some c1Answers1)).1.status = 400 ∧
     (submitPOST (submitPOST demoStudents demoForms (some demoSession) (some c1Answers1)).2
         demoForms (some demoSession) (some c1Answers1)).1.code = some "ALREADY_ATTEMPTED" ∧
     (submitPOST (submitPOST demoStudents demoForms (some demoSession) (some c1Answers1)).2
         demoForms (some demoSession) (some c1Answers1)).2 =
       (submitPOST demoStudents demoForms (some demoSession) (some c1Answers1)).2) :=
  ⟨by decide, by decide, by decide,
   claim2_submit_exactly_once demoStudents demoForms demoSession c1Answers1 demoStudent demoForm
     (by decide) (by decide) (by decide)⟩

/-! ## Claim C4: session claiming -/

lemma findById_of_mem (db : StudentDB) (hids : (db.map Prod.fst).Nodup)
    (sid : Nat) (s : StudentRec) (hmem : (sid, s) ∈ db) : findById db sid = some s := by
  induction db with
  | nil => cases hmem
  | cons p rest ih =>
    obtain ⟨k, v⟩ := p
    rw [List.map_cons, List.nodup_cons] at hids
    rcases List.mem_cons.mp hmem with heq | hmem'
    · have h1 : sid = k := congrArg Prod.fst heq
      have h2 : s = v := congrArg Prod.snd heq
      subst h1
      subst h2
      rw [findById_cons, if_pos rfl]
    · have hk : k ≠ sid := fun hc =>
        hids.1 (hc ▸ List.mem_map.mpr ⟨(sid, s), hmem', rfl⟩)
      rw [findById_cons, if_neg hk, ih hids.2 hmem']

/-- C4: for a non-attempted student found by roll number (valid inputs,
verified token, unique ids), the roll-verification claim fails with 409 if
and only if the stored session is flagged active and its expiry is still in
the future; when the flag is set but the expiry has passed, the claim
succeeds and stores exactly
`sessionData = {isActive:true, startTime:now, deviceId:<from user-agent>,
expiresAt:now+5h}`. -/
theorem claim4_session_claim (students : StudentDB) (p : VerifyPayload)
    (roll tokenStr : String) (ua : Option String) (now : Nat)
    (sid : Nat) (s : StudentRec)
    (hroll : roll ≠ "") (htok : tokenStr ≠ "")
    (hver : p.verified = true)
    (hfind : findByRoll students (jsTrim roll) = some (sid, s))
    (hids : (students.map Prod.fst).Nodup)
    (hatt : s.attempted = false) :
    ((verifyRollPOST students (some roll) (some tokenStr) (some p) ua now).1.status = 409 ↔
      (s.sessionData.isActive = true ∧ now < s.sessionData.expiresAt.getD 0)) ∧
    (s.sessionData.isActive = true → ¬ now < s.sessionData.expiresAt.getD 0 →
      (verifyRollPOST students (some roll) (some tokenStr) (some p) ua now).1.success = true ∧
      (verifyRollPOST students (some roll) (some tokenStr) (some p) ua now).1.status = 200 ∧
      findById (verifyRollPOST students (some roll) (some tokenStr) (some p) ua now).2 sid =
        some (claimSessionUpdate p.phone (deviceFrom ua) now (now + fiveHoursMs) s)) := by
  have hmem : (sid, s) ∈ students := List.mem_of_find?_eq_some hfind
  have hbyid : findById students sid = some s := findById_of_mem students hids sid s hmem
  have hrun : verifyRollPOST students (some roll) (some tokenStr) (some p) ua now =
      (if s.sessionData.isActive && decide (now < s.sessionData.expiresAt.getD 0) then
        (⟨409, false, "You already have an active session on another device. Only one device can be used at a time.", none⟩,
         students)
       else
        (⟨200, true, "Login successful",
          some { studentId := sid
                 rollNumber := s.rollNo
                 phone := p.phone
                 name := s.name
                 sessionStart := now
                 sessionExpires := now + fiveHoursMs
                 courseId := s.courseId
                 formId := none }⟩,
         updateStudent students sid
           (claimSessionUpdate p.phone (deviceFrom ua) now (now + fiveHoursMs)))) := by
    unfold verifyRollPOST
    simp [jsFalsy, hroll, htok, hver, hfind, hatt]
  constructor
  · by_cases hc : (s.sessionData.isActive &&
        decide (now < s.sessionData.expiresAt.getD 0)) = true
    · rw [hrun, if_pos hc]
      rw [Bool.and_eq_true, decide_eq_true_eq] at hc
      exact ⟨fun _ => hc, fun _ => rfl⟩
    · rw [hrun, if_neg hc]
      rw [Bool.and_eq_true, decide_eq_true_eq] at hc
      constructor
      · intro h200
        exact absurd h200 (by norm_num)
      · intro hboth
        exact absurd hboth hc
  · intro hact hexp
    have hc : ¬ (s.sessionData.isActive &&
        decide (now < s.sessionData.expiresAt.getD 0)) = true := by
      rw [Bool.and_eq_true, decide_eq_true_eq]
      exact fun hb => hexp hb.2
    rw [hrun, if_neg hc]
    refine ⟨rfl, rfl, ?_⟩
    rw [findById_updateStudent_self, hbyid, Option.map_some']

/-- Witness for C4: a stale-but-flagged-active session (expired at 500,
claimed at 1000000) is taken over: no 409, success, fresh session data. -/
theorem claim4_session_claim_witness :
    ("R100" : String) ≠ "" ∧ ("tok" : String) ≠ "" ∧ c4Verify.verified = true ∧
    findByRoll c4Students (jsTrim "R100") = some (7, c4Student) ∧
    (c4Students.map Prod.fst).Nodup ∧ c4Student.attempted = false ∧
    (((verifyRollPOST c4Students (some "R100") (some "tok") (some c4Verify)
          (some "Mozilla") 1000000).1.status = 409 ↔
        (c4Student.sessionData.isActive = true ∧
         1000000 < c4Student.sessionData.expiresAt.getD 0)) ∧
     (c4Student.sessionData.isActive = true →
      ¬ 1000000 < c4Student.sessionData.expiresAt.getD 0 →
      (verifyRollPOST c4Students (some "R100") (some "tok") (some c4Verify)
          (some "Mozilla") 1000000).1.success = true ∧
      (verifyRollPOST c4Students (some "R100") (some "tok") (some c4Verify)
          (some "Mozilla") 1000000).1.status = 200 ∧
      findById (verifyRollPOST c4Students (some "R100") (some "tok") (some c4Verify)
          (some "Mozilla") 1000000).2 7 =
        some (claimSessionUpdate c4Verify.phone (deviceFrom (some "Mozilla"))
          1000000 (1000000 + fiveHoursMs) c4Student))) :=
  ⟨by decide, by decide, by decide, by decide, by decide, by decide,
   claim4_session_claim c4Students c4Verify "R100" "tok" (some "Mozilla") 1000000 7 c4Student
     (by decide) (by decide) (by decide) (by decide) (by decide) (by decide)⟩

/-! ## Claim C8: OTP verification (the success path throws) -/

lemma isTenDigits_ne_empty {s : String} (h : isTenDigits s = true) : (s == "") = false := by
  rw [beq_eq_false_iff_ne]
  intro hc
  subst hc
  simp [isTenDigits] at h

/-- C8 (the code defeats the claim: its success path always throws): the
verify-otp handler never returns a success response or a verification token,
because its would-be success branch evaluates `new SignJWT` while the
`SignJWT` import is commented out, so it throws and the catch answers 500. At
the concrete valid (phone, code) pair the first call answers 500
`An error occurred while verifying OTP`, yet still deletes the record (the
un-awaited `deleteOne` is dispatched before the throw), so a second call
with the same pair answers 400 `Invalid OTP`. -/
theorem claim8_verify_otp_code_eval :
    (∀ (otps : List OtpRecord) (phone otp : Option String) (now : Nat),
      (verifyOtpPOST otps phone otp now).1.success = false ∧
      (verifyOtpPOST otps phone otp now).1.token = none) ∧
    (verifyOtpPOST c8Otps (some "9876543210") (some "123456") 200).1.status = 500 ∧
    (verifyOtpPOST c8Otps (some "9876543210") (some "123456") 200).1.message =
      "An error occurred while verifying OTP" ∧
    (verifyOtpPOST c8Otps (some "9876543210") (some "123456") 200).2 = [] ∧
    (verifyOtpPOST (verifyOtpPOST c8Otps (some "9876543210") (some "123456") 200).2
        (some "9876543210") (some "123456") 300).1.status = 400 ∧
    (verifyOtpPOST (verifyOtpPOST c8Otps (some "9876543210") (some "123456") 200).2
        (some "9876543210") (some "123456") 300).1.message = "Invalid OTP" := by
  refine ⟨?_, by decide, by decide, by decide, by decide, by decide⟩
  intro otps phone otp now
  unfold verifyOtpPOST
  by_cases h1 : (jsFalsy phone || jsFalsy otp) = true
  · rw [if_pos h1]
    exact ⟨rfl, rfl⟩
  · rw [if_neg h1]
    dsimp only
    by_cases h2 : (!(isTenDigits (phone.getD "") && isSixDigits (otp.getD ""))) = true
    · rw [if_pos h2]
      exact ⟨rfl, rfl⟩
    · rw [if_neg h2]
      cases hfind : findOtpMatch otps (phone.getD "") (otp.getD "") with
      | none => exact ⟨rfl, rfl⟩
      | some r =>
        dsimp only
        by_cases h3 : OTP_TTL_MS < now - r.createdAt
        · rw [if_pos h3]
          exact ⟨rfl, rfl⟩
        · rw [if_neg h3]
          exact ⟨rfl, rfl⟩


/-! ## JS-Map lemmas (shared by the rate-limit cache and the question cache) -/

lemma jsMapGet_cons {β : Type} (p : String × β) (t : List (String × β)) (k : String) :
    jsMapGet (p :: t) k = if p.1 == k then some p.2 else jsMapGet t k := by
  by_cases h : (p.1 == k) = true
  · simp [jsMapGet, List.find?_cons_of_pos, h]
  · simp only [jsMapGet, if_neg h]
    rw [List.find?_cons_of_neg]
    simpa using h

lemma jsMapGet_map_set {β : Type} (m : List (String × β)) (k : String) (v : β)
    (h : m.any (fun p => p.1 == k) = true) :
    jsMapGet (m.map (fun p => if p.1 == k then (k, v) else p)) k = some v := by
  induction m with
  | nil => simp at h
  | cons p t ih =>
    rw [List.map_cons]
    by_cases hp : (p.1 == k) = true
    · rw [if_pos hp, jsMapGet_cons, if_pos (by simp)]
    · rw [if_neg hp, jsMapGet_cons, if_neg (by simpa using hp)]
      exact ih (by simpa [List.any_cons, hp] using h)

lemma jsMapGet_append_new {β : Type} (m : List (String × β)) (k : String) (v : β)
    (h : m.any (fun p => p.1 == k) = false) :
    jsMapGet (m ++ [(k, v)]) k = some v := by
  induction m with
  | nil => rw [List.nil_append, jsMapGet_cons, if_pos (by simp)]
  | cons p t ih =>
    rw [List.any_cons, Bool.or_eq_false_iff] at h
    rw [List.cons_append, jsMapGet_cons, if_neg (by simp [h.1])]
    exact ih h.2

lemma jsMapGet_jsMapSet {β : Type} (m : List (String × β)) (k : String) (v : β) :
    jsMapGet (jsMapSet m k v) k = some v := by
  unfold jsMapSet
  by_cases h : m.any (fun p => p.1 == k) = true
  · rw [if_pos h]
    exact jsMapGet_map_set m k v h
  · rw [if_neg h]
    exact jsMapGet_append_new m k v (Bool.not_eq_true _ ▸ h)

/-! ## Claim C9: OTP resend throttling -/

lemma findOtpByPhone_cons (h : OtpRecord) (t : List OtpRecord) (phone : String) :
    findOtpByPhone (h :: t) phone =
      if h.phone == phone then some h else findOtpByPhone t phone := by
  by_cases hh : (h.phone == phone) = true
  · simp [findOtpByPhone, List.find?_cons_of_pos, hh]
  · simp only [findOtpByPhone, if_neg hh]
    rw [List.find?_cons_of_neg]
    simpa using hh

lemma findOtpByPhone_updateFirst (otps : List OtpRecord) (phone cc code : String) (now : Nat)
    (h : otps.any (fun r => r.phone == phone) = true) :
    ∃ r, findOtpByPhone
        (otpUpdateFirst otps (fun r => r.phone == phone)
          (fun r => { r with countryCode := cc, otp := code, createdAt := now })) phone =
      some r ∧ r.createdAt = now := by
  induction otps with
  | nil => simp at h
  | cons x t ih =>
    unfold otpUpdateFirst
    by_cases hx : (x.phone == phone) = true
    · rw [if_pos hx, findOtpByPhone_cons]
      exact ⟨_, by rw [if_pos hx], rfl⟩
    · rw [if_neg hx, findOtpByPhone_cons, if_neg (by simpa using hx)]
      exact ih (by simpa [List.any_cons, hx] using h)

lemma findOtpByPhone_append_new (otps : List OtpRecord) (phone : String) (new : OtpRecord)
    (hnew : (new.phone == phone) = true)
    (h : otps.any (fun r => r.phone == phone) = false) :
    findOtpByPhone (otps ++ [new]) phone = some new := by
  induction otps with
  | nil => rw [List.nil_append, findOtpByPhone_cons, if_pos hnew]
  | cons x t ih =>
    rw [List.any_cons, Bool.or_eq_false_iff] at h
    rw [List.cons_append, findOtpByPhone_cons, if_neg (by simp [h.1])]
    exact ih h.2

lemma findOtpByPhone_upsert (otps : List OtpRecord) (phone cc code : String)
    (now : Nat) (newId : Nat) :
    ∃ r, findOtpByPhone (otpUpsert otps phone cc code now newId) phone = some r ∧
      r.createdAt = now := by
  unfold otpUpsert
  by_cases h : otps.any (fun r => r.phone == phone) = true
  · rw [if_pos h]
    exact findOtpByPhone_updateFirst otps phone cc code now h
  · rw [if_neg h]
    exact ⟨_, findOtpByPhone_append_new otps phone _ (by simp) (Bool.not_eq_true _ ▸ h), rfl⟩

lemma sendOtp_validation_false {phone : String} (hvalid : isTenDigits phone = true) :
    (jsFalsy (some phone) || !(isTenDigits ((some phone).getD ""))) = false := by
  simp [jsFalsy, isTenDigits_ne_empty hvalid, hvalid]

lemma sendOtpPOST_fresh_shape (rate : RateCache) (otps : List OtpRecord)
    (xff : Option String) (phone : String) (cc : Option String)
    (now : Nat) (newOtp : String) (newId : Nat)
    (hvalid : isTenDigits phone = true)
    (hfresh : rateGet rate (ipOf xff ++ ":" ++ phone) = none) :
    sendOtpPOST rate otps xff (some phone) cc now newOtp newId =
      sendOtpAfterRate (rateSet rate (ipOf xff ++ ":" ++ phone) ⟨1, now⟩) otps phone
        (cc.getD "+91") now newOtp newId := by
  unfold sendOtpPOST
  rw [sendOtp_validation_false hvalid]
  rw [if_neg (by simp)]
  simp only [Option.getD_some]
  rw [hfresh]

lemma sendOtpPOST_entry_shape (rate : RateCache) (otps : List OtpRecord)
    (xff : Option String) (phone : String) (cc : Option String)
    (now : Nat) (newOtp : String) (newId : Nat) (e : RateEntry)
    (hvalid : isTenDigits phone = true)
    (hget : rateGet rate (ipOf xff ++ ":" ++ phone) = some e)
    (hcap : e.count < MAX_REQUESTS) :
    sendOtpPOST rate otps xff (some phone) cc now newOtp newId =
      sendOtpAfterRate
        (rateSet rate (ipOf xff ++ ":" ++ phone)
          (if now - e.timestamp < RATE_LIMIT_WINDOW then ⟨e.count + 1, e.timestamp⟩
           else ⟨1, now⟩))
        otps phone (cc.getD "+91") now newOtp newId := by
  unfold sendOtpPOST
  rw [sendOtp_validation_false hvalid]
  rw [if_neg (by simp)]
  simp only [Option.getD_some]
  rw [hget]
  dsimp only
  by_cases hw : now - e.timestamp < RATE_LIMIT_WINDOW
  · rw [if_pos hw, if_pos hw, if_neg (Nat.not_le.mpr hcap)]
  · rw [if_neg hw, if_neg hw]

lemma sendOtpAfterRate_success_state (rate' : RateCache) (otps : List OtpRecord)
    (ph cc : String) (now : Nat) (newOtp : String) (newId : Nat)
    (h : (sendOtpAfterRate rate' otps ph cc now newOtp newId).1.success = true) :
    (sendOtpAfterRate rate' otps ph cc now newOtp newId).2 =
      (rate', otpUpsert otps ph cc newOtp now newId) := by
  unfold sendOtpAfterRate at h ⊢
  cases hf : findOtpByPhone otps ph with
  | none => rfl
  | some ex =>
    rw [hf] at h
    dsimp only at h ⊢
    by_cases hage : now - ex.createdAt < RESEND_MS
    · rw [if_pos hage] at h
      simp at h
    · rw [if_neg hage]

lemma sendOtpAfterRate_resend (rate' : RateCache) (otps : List OtpRecord)
    (ph cc : String) (now : Nat) (newOtp : String) (newId : Nat) (r : OtpRecord)
    (hf : findOtpByPhone otps ph = some r) (hage : now - r.createdAt < RESEND_MS) :
    sendOtpAfterRate rate' otps ph cc now newOtp newId =
      (⟨429, false, "Please wait before requesting another OTP"⟩, rate', otps) := by
  unfold sendOtpAfterRate
  rw [hf]
  dsimp only
  rw [if_pos hage]

lemma sendOtpAfterRate_resend_parts (rate' : RateCache) (otps : List OtpRecord)
    (ph cc : String) (now : Nat) (newOtp : String) (newId : Nat) (r : OtpRecord)
    (hf : findOtpByPhone otps ph = some r) (hage : now - r.createdAt < RESEND_MS) :
    (sendOtpAfterRate rate' otps ph cc now newOtp newId).1.status = 429 ∧
    (sendOtpAfterRate rate' otps ph cc now newOtp newId).1.message =
      "Please wait before requesting another OTP" ∧
    (sendOtpAfterRate rate' otps ph cc now newOtp newId).2.2 = otps := by
  rw [sendOtpAfterRate_resend rate' otps ph cc now newOtp newId r hf hage]
  exact ⟨rfl, rfl, rfl⟩

lemma sendOtpAfterRate_no_resend (rate' : RateCache) (otps : List OtpRecord)
    (ph cc : String) (now : Nat) (newOtp : String) (newId : Nat)
    (hok : ∀ r, findOtpByPhone otps ph = some r → ¬ now - r.createdAt < RESEND_MS) :
    (sendOtpAfterRate rate' otps ph cc now newOtp newId).1.success = true := by
  unfold sendOtpAfterRate
  cases hf : findOtpByPhone otps ph with
  | none => rfl
  | some ex =>
    dsimp only
    rw [if_neg (hok ex hf)]

/-- C9: from a state with no rate-limit entry for the caller, a successful
`requestCode` followed by a second `requestCode` for the same phone: the
second fails with 429 "Please wait before requesting another OTP" (leaving
the OTP store unchanged) whenever the live record is younger than 60
seconds, and once 60 seconds have elapsed the resend check no longer rejects
(the second call succeeds). -/
theorem claim9_resend_window (rate : RateCache) (otps : List OtpRecord)
    (xff : Option String) (phone : String) (cc1 cc2 : Option String)
    (now1 now2 : Nat) (otp1 otp2 : String) (id1 id2 : Nat)
    (hvalid : isTenDigits phone = true)
    (hfresh : rateGet rate (ipOf xff ++ ":" ++ phone) = none)
    (h1 : (sendOtpPOST rate otps xff (some phone) cc1 now1 otp1 id1).1.success = true) :
    (now2 - now1 < RESEND_MS →
      (sendOtpPOST (sendOtpPOST rate otps xff (some phone) cc1 now1 otp1 id1).2.1
          (sendOtpPOST rate otps xff (some phone) cc1 now1 otp1 id1).2.2
          xff (some phone) cc2 now2 otp2 id2).1.status = 429 ∧
      (sendOtpPOST (sendOtpPOST rate otps xff (some phone) cc1 now1 otp1 id1).2.1
          (sendOtpPOST rate otps xff (some phone) cc1 now1 otp1 id1).2.2
          xff (some phone) cc2 now2 otp2 id2).1.message =
        "Please wait before requesting another OTP" ∧
      (sendOtpPOST (sendOtpPOST rate otps xff (some phone) cc1 now1 otp1 id1).2.1
          (sendOtpPOST rate otps xff (some phone) cc1 now1 otp1 id1).2.2
          xff (some phone) cc2 now2 otp2 id2).2.2 =
        (sendOtpPOST rate otps xff (some phone) cc1 now1 otp1 id1).2.2) ∧
    (RESEND_MS ≤ now2 - now1 →
      (sendOtpPOST (sendOtpPOST rate otps xff (some phone) cc1 now1 otp1 id1).2.1
          (sendOtpPOST rate otps xff (some phone) cc1 now1 otp1 id1).2.2
          xff (some phone) cc2 now2 otp2 id2).1.success = true) := by
  have hshape1 := sendOtpPOST_fresh_shape rate otps xff phone cc1 now1 otp1 id1 hvalid hfresh
  have hstate1 : (sendOtpPOST rate otps xff (some phone) cc1 now1 otp1 id1).2 =
      (rateSet rate (ipOf xff ++ ":" ++ phone) ⟨1, now1⟩,
       otpUpsert otps phone (cc1.getD "+91") otp1 now1 id1) := by
    rw [hshape1]
    exact sendOtpAfterRate_success_state _ _ _ _ _ _ _ (by rw [← hshape1]; exact h1)
  have hrate1 : (sendOtpPOST rate otps xff (some phone) cc1 now1 otp1 id1).2.1 =
      rateSet rate (ipOf xff ++ ":" ++ phone) ⟨1, now1⟩ := by rw [hstate1]
  have hotps1 : (sendOtpPOST rate otps xff (some phone) cc1 now1 otp1 id1).2.2 =
      otpUpsert otps phone (cc1.getD "+91") otp1 now1 id1 := by rw [hstate1]
  obtain ⟨r1, hr1, hr1t⟩ :=
    findOtpByPhone_upsert otps phone (cc1.getD "+91") otp1 now1 id1
  have hget2 : rateGet (sendOtpPOST rate otps xff (some phone) cc1 now1 otp1 id1).2.1
      (ipOf xff ++ ":" ++ phone) = some ⟨1, now1⟩ := by
    rw [hrate1]
    exact jsMapGet_jsMapSet rate _ _
  have hshape2 := sendOtpPOST_entry_shape
    (sendOtpPOST rate otps xff (some phone) cc1 now1 otp1 id1).2.1
    (sendOtpPOST rate otps xff (some phone) cc1 now1 otp1 id1).2.2
    xff phone cc2 now2 otp2 id2 ⟨1, now1⟩ hvalid hget2 (by norm_num [MAX_REQUESTS])
  constructor
  · intro hage
    have hfr : findOtpByPhone
        (sendOtpPOST rate otps xff (some phone) cc1 now1 otp1 id1).2.2 phone = some r1 := by
      rw [hotps1]
      exact hr1
    have hage' : now2 - r1.createdAt < RESEND_MS := by
      rw [hr1t]
      exact hage
    refine ⟨?_, ?_, ?_⟩
    · rw [hshape2]
      exact (sendOtpAfterRate_resend_parts _ _ _ _ _ _ _ r1 hfr hage').1
    · rw [hshape2]
      exact (sendOtpAfterRate_resend_parts _ _ _ _ _ _ _ r1 hfr hage').2.1
    · rw [hshape2]
      exact (sendOtpAfterRate_resend_parts _ _ _ _ _ _ _ r1 hfr hage').2.2
  · intro hage
    rw [hshape2]
    apply sendOtpAfterRate_no_resend
    intro r hr
    rw [hotps1] at hr
    rw [hr1] at hr
    have hrr : r1 = r := Option.some.inj hr
    rw [← hrr, hr1t]
    exact Nat.not_lt.mpr hage

/-- Witness for C9: from a fresh state, request a code at 1000 and again at
2000 (1 second later): the second call hits the resend throttle. -/
theorem claim9_resend_window_witness :
    isTenDigits "9876543210" = true ∧
    rateGet [] (ipOf none ++ ":" ++ "9876543210") = none ∧
    (sendOtpPOST [] [] none (some "9876543210") none 1000 "111111" 1).1.success = true ∧
    ((2000 - 1000 < RESEND_MS →
      (sendOtpPOST (sendOtpPOST [] [] none (some "9876543210") none 1000 "111111" 1).2.1
          (sendOtpPOST [] [] none (some "9876543210") none 1000 "111111" 1).2.2
          none (some "9876543210") none 2000 "222222" 2).1.status = 429 ∧
      (sendOtpPOST (sendOtpPOST [] [] none (some "9876543210") none 1000 "111111" 1).2.1
          (sendOtpPOST [] [] none (some "9876543210") none 1000 "111111" 1).2.2
          none (some "9876543210") none 2000 "222222" 2).1.message =
        "Please wait before requesting another OTP" ∧
      (sendOtpPOST (sendOtpPOST [] [] none (some "9876543210") none 1000 "111111" 1).2.1
          (sendOtpPOST [] [] none (some "9876543210") none 1000 "111111" 1).2.2
          none (some "9876543210") none 2000 "222222" 2).2.2 =
        (sendOtpPOST [] [] none (some "9876543210") none 1000 "111111" 1).2.2) ∧
     (RESEND_MS ≤ 2000 - 1000 →
      (sendOtpPOST (sendOtpPOST [] [] none (some "9876543210") none 1000 "111111" 1).2.1
          (sendOtpPOST [] [] none (some "9876543210") none 1000 "111111" 1).2.2
          none (some "9876543210") none 2000 "222222" 2).1.success = true)) :=
  ⟨by decide, by decide, by decide,
   claim9_resend_window [] [] none "9876543210" none none 1000 2000 "111111" "222222" 1 2
     (by decide) (by decide) (by decide)⟩

/-! ## Claim C5: the answer key never reaches the client -/

lemma sanitizedQ_toSafeJson (q : QuestionDoc) : sanitizedQ (toSafeJson q) = true := by
  rfl

lemma sanitizedQ_no_correctAnswer (j : Json) (h : sanitizedQ j = true) :
    hasKey j "correctAnswer" = false := by
  cases j with
  | null => rfl
  | num n => rfl
  | str s => rfl
  | arr l => rfl
  | obj fields =>
    unfold sanitizedQ at h
    dsimp only at h
    have hkeys : fields.map Prod.fst = ["id", "question", "options"] := by
      exact beq_iff_eq.mp h
    unfold hasKey
    dsimp only
    cases hany : fields.any (fun p => p.1 == "correctAnswer")
    · rfl
    · exfalso
      obtain ⟨x, hx, hxk⟩ := List.any_eq_true.mp hany
      have hmem : x.1 ∈ List.map Prod.fst fields := List.mem_map.mpr ⟨x, hx, rfl⟩
      rw [hkeys, beq_iff_eq.mp hxk] at hmem
      exact absurd hmem (by decide)

lemma all_set {α : Type} (P : α → Bool) (l : List α) (n : Nat) (a : α)
    (ha : P a = true) (h : l.all P = true) : (l.set n a).all P = true := by
  induction l generalizing n with
  | nil => simp
  | cons x t ih =>
    rw [List.all_cons, Bool.and_eq_true] at h
    cases n with
    | zero =>
      rw [List.set_cons_zero, List.all_cons, Bool.and_eq_true]
      exact ⟨ha, h.2⟩
    | succ n =>
      rw [List.set_cons_succ, List.all_cons, Bool.and_eq_true]
      exact ⟨h.1, ih n h.2⟩

lemma listSwap_all {α : Type} (P : α → Bool) (l : List α) (i j : Nat)
    (h : l.all P = true) : (listSwap l i j).all P = true := by
  unfold listSwap
  cases hi : l.get? i with
  | none => exact h
  | some a =>
    cases hj : l.get? j with
    | none => exact h
    | some b =>
      have hall := List.all_eq_true.mp h
      have ha : P a = true := hall a (List.get?_mem hi)
      have hb : P b = true := hall b (List.get?_mem hj)
      exact all_set P _ j a ha (all_set P l i b hb h)

lemma shuffleGo_all {α : Type} (P : α → Bool) (rand : Nat → Nat) (n : Nat) (l : List α)
    (h : l.all P = true) : (shuffleGo rand n l).all P = true := by
  induction n generalizing l with
  | zero => exact h
  | succ i ih => exact ih _ (listSwap_all P l (i + 1) _ h)

lemma shuffleArray_all {α : Type} (P : α → Bool) (arr : List α) (rand : Nat → Nat)
    (h : arr.all P = true) : (shuffleArray arr rand).all P = true :=
  shuffleGo_all P rand _ arr h

lemma all_mono {α : Type} (P Q : α → Bool) (h : ∀ a, P a = true → Q a = true)
    (l : List α) (hl : l.all P = true) : l.all Q = true := by
  rw [List.all_eq_true] at hl ⊢
  exact fun x hx => h x (hl x hx)

lemma cacheSanitized_entry (c : Cache) (k : String) (e : CacheEntry)
    (hwf : cacheSanitized c = true) (hget : mapGet c k = some e) :
    e.questions.all sanitizedQ = true := by
  unfold cacheSanitized at hwf
  have hall := List.all_eq_true.mp hwf
  unfold mapGet jsMapGet at hget
  cases hf : c.find? (fun p => p.1 == k) with
  | none =>
    rw [hf] at hget
    simp at hget
  | some pr =>
    rw [hf] at hget
    rw [Option.map_some'] at hget
    have hmem := List.mem_of_find?_eq_some hf
    have := hall pr hmem
    rw [Option.some.inj hget] at this
    exact this

lemma cacheSanitized_set (c : Cache) (k : String) (v : CacheEntry)
    (hwf : cacheSanitized c = true) (hv : v.questions.all sanitizedQ = true) :
    cacheSanitized (mapSet c k v) = true := by
  unfold mapSet jsMapSet
  by_cases h : c.any (fun p => p.1 == k) = true
  · rw [if_pos h]
    unfold cacheSanitized at hwf ⊢
    rw [List.all_eq_true] at hwf ⊢
    intro x hx
    obtain ⟨y, hy, hxy⟩ := List.mem_map.mp hx
    by_cases hk : (y.1 == k) = true
    · rw [← hxy, if_pos hk]
      exact hv
    · rw [← hxy, if_neg hk]
      exact hwf y hy
  · rw [if_neg h]
    unfold cacheSanitized at hwf ⊢
    rw [List.all_append, hwf, Bool.true_and, List.all_cons, hv]
    rfl

lemma cacheSanitized_evict (c : Cache) (hwf : cacheSanitized c = true) :
    cacheSanitized (cacheEvict c) = true := by
  unfold cacheEvict
  by_cases h : MAX_CACHE_ENTRIES < c.length
  · rw [if_pos h]
    unfold cacheSanitized at hwf ⊢
    rw [List.all_eq_true] at hwf ⊢
    exact fun x hx => hwf x (List.drop_subset 1 c hx)
  · rw [if_neg h]
    exact hwf

lemma questionsMiss_sanitized (forms : List Form) (cache : Cache) (formId : String)
    (now : Nat) (rand : Nat → Nat) (hwf : cacheSanitized cache = true) :
    (questionsMiss forms cache formId now rand).1.questions.all sanitizedQ = true ∧
    cacheSanitized (questionsMiss forms cache formId now rand).2 = true := by
  unfold questionsMiss
  cases hf : findForm forms formId with
  | none => exact ⟨rfl, hwf⟩
  | some form =>
    dsimp only
    have hsafe : (form.questions.map toSafeJson).all sanitizedQ = true := by
      rw [List.all_eq_true]
      intro x hx
      obtain ⟨q, _, rfl⟩ := List.mem_map.mp hx
      exact sanitizedQ_toSafeJson q
    have hsh : (shuffleArray (form.questions.map toSafeJson) rand).all sanitizedQ = true :=
      shuffleArray_all _ _ rand hsafe
    exact ⟨hsh, cacheSanitized_evict _ (cacheSanitized_set cache formId _ hwf hsh)⟩

/-- C5: starting from a cache whose entries are sanitized, every response of
the questions handler (cache hit or miss) carries only question objects with
exactly the keys `id`, `question`, `options` — the `correctAnswer` field is
never present — and the cache stays sanitized. -/
theorem claim5_answer_key_never_sent (forms : List Form) (cache : Cache)
    (tok : Option SessionPayload) (query : Option String) (now : Nat) (rand : Nat → Nat)
    (hwf : cacheSanitized cache = true) :
    (questionsGET forms cache tok query now rand).1.questions.all
      (fun q => sanitizedQ q && !(hasKey q "correctAnswer")) = true ∧
    cacheSanitized (questionsGET forms cache tok query now rand).2 = true := by
  have main : (questionsGET forms cache tok query now rand).1.questions.all sanitizedQ = true ∧
      cacheSanitized (questionsGET forms cache tok query now rand).2 = true := by
    unfold questionsGET
    cases tok with
    | none => exact ⟨rfl, hwf⟩
    | some payload =>
      dsimp only
      by_cases hb : jsFalsy (jsStrOr query payload.formId) = true
      · rw [if_pos hb]
        exact ⟨rfl, hwf⟩
      · rw [if_neg hb]
        cases hm : mapGet cache ((jsStrOr query payload.formId).getD "") with
        | some entry =>
          dsimp only
          by_cases hfr : now - entry.timestamp < CACHE_DURATION
          · rw [if_pos hfr]
            exact ⟨cacheSanitized_entry cache _ entry hwf hm, hwf⟩
          · rw [if_neg hfr]
            exact questionsMiss_sanitized forms cache _ now rand hwf
        | none => exact questionsMiss_sanitized forms cache _ now rand hwf
  refine ⟨?_, main.2⟩
  refine all_mono sanitizedQ _ ?_ _ main.1
  intro a ha
  rw [ha, sanitizedQ_no_correctAnswer a ha]
  rfl

/-- Witness for C5: a concrete fetch from an empty cache. -/
theorem claim5_answer_key_never_sent_witness :
    cacheSanitized [] = true ∧
    ((questionsGET demoForms [] (some demoSession) (some "110") 0 (fun _ => 0)).1.questions.all
      (fun q => sanitizedQ q && !(hasKey q "correctAnswer")) = true ∧
     cacheSanitized (questionsGET demoForms [] (some demoSession) (some "110") 0 (fun _ => 0)).2 = true) :=
  ⟨by decide,
   claim5_answer_key_never_sent demoForms [] (some demoSession) (some "110") 0 (fun _ => 0)
     (by decide)⟩

/-! ## Claim C6: cache-hit stability inside the TTL window -/

lemma jsStrOr_some_ne (fid : String) (b : Option String) (h : fid ≠ "") :
    jsStrOr (some fid) b = some fid := by
  unfold jsStrOr
  dsimp only
  rw [if_neg h]

lemma jsFalsy_some_ne (fid : String) (h : fid ≠ "") : jsFalsy (some fid) = false := by
  unfold jsFalsy
  exact beq_eq_false_iff_ne.mpr h

lemma questionsGET_query_eq (forms : List Form) (cache : Cache) (p : SessionPayload)
    (fid : String) (now : Nat) (rand : Nat → Nat) (h : fid ≠ "") :
    questionsGET forms cache (some p) (some fid) now rand =
      (match mapGet cache fid with
       | some entry =>
         if now - entry.timestamp < CACHE_DURATION then
           (⟨200, true, "", some fid, entry.questions, some entry.questions.length, some true⟩,
            cache)
         else questionsMiss forms cache fid now rand
       | none => questionsMiss forms cache fid now rand) := by
  unfold questionsGET
  dsimp only
  rw [jsStrOr_some_ne fid p.formId h]
  rw [jsFalsy_some_ne fid h]
  rw [if_neg (by simp)]
  rfl

lemma entryFresh_spec (c : Cache) (k : String) (now : Nat) (e : CacheEntry)
    (hget : mapGet c k = some e) (hfresh : entryFresh c k now = true) :
    now - e.timestamp < CACHE_DURATION := by
  unfold entryFresh at hfresh
  unfold mapGet jsMapGet at hget
  rw [hget] at hfresh
  exact of_decide_eq_true hfresh

lemma mapGet_after_store (m : Cache) (k : String) (v : CacheEntry)
    (hlen : m.length ≤ MAX_CACHE_ENTRIES) :
    mapGet (cacheEvict (mapSet m k v)) k = some v := by
  unfold mapSet jsMapSet cacheEvict
  by_cases h : m.any (fun p => p.1 == k) = true
  · rw [if_pos h]
    rw [if_neg (by rw [List.length_map]; exact Nat.not_lt.mpr hlen)]
    exact jsMapGet_map_set m k v h
  · rw [if_neg h]
    have hany : m.any (fun p => p.1 == k) = false := by
      cases hc : m.any (fun p => p.1 == k)
      · rfl
      · exact absurd hc h
    by_cases h2 : MAX_CACHE_ENTRIES < (m ++ [(k, v)]).length
    · rw [if_pos h2]
      cases m with
      | nil => simp [MAX_CACHE_ENTRIES] at h2
      | cons x t =>
        rw [List.cons_append, List.drop_succ_cons, List.drop_zero]
        rw [List.any_cons, Bool.or_eq_false_iff] at hany
        exact jsMapGet_append_new t k v hany.2
    · rw [if_neg h2]
      exact jsMapGet_append_new m k v hany

lemma questionsMiss_entry (forms : List Form) (cache : Cache) (fid : String)
    (now : Nat) (rand : Nat → Nat)
    (hlen : cache.length ≤ MAX_CACHE_ENTRIES)
    (hsucc : (questionsMiss forms cache fid now rand).1.success = true) :
    ∃ e, mapGet (questionsMiss forms cache fid now rand).2 fid = some e ∧
      e.questions = (questionsMiss forms cache fid now rand).1.questions := by
  unfold questionsMiss at hsucc ⊢
  cases hf : findForm forms fid with
  | none =>
    rw [hf] at hsucc
    simp at hsucc
  | some form =>
    dsimp only
    exact ⟨⟨shuffleArray (form.questions.map toSafeJson) rand, now⟩,
      mapGet_after_store cache fid _ hlen, rfl⟩

lemma questionsGET_entry_after (forms : List Form) (cache : Cache) (p : SessionPayload)
    (fid : String) (now : Nat) (rand : Nat → Nat)
    (hfid : fid ≠ "") (hlen : cache.length ≤ MAX_CACHE_ENTRIES)
    (hsucc : (questionsGET forms cache (some p) (some fid) now rand).1.success = true) :
    ∃ e, mapGet (questionsGET forms cache (some p) (some fid) now rand).2 fid = some e ∧
      e.questions = (questionsGET forms cache (some p) (some fid) now rand).1.questions := by
  rw [questionsGET_query_eq forms cache p fid now rand hfid] at hsucc ⊢
  cases hm : mapGet cache fid with
  | some entry =>
    rw [hm] at hsucc
    dsimp only at hsucc ⊢
    by_cases hfr : now - entry.timestamp < CACHE_DURATION
    · rw [if_pos hfr]
      exact ⟨entry, hm, rfl⟩
    · rw [if_neg hfr] at hsucc ⊢
      exact questionsMiss_entry forms cache fid now rand hlen hsucc
  | none =>
    rw [hm] at hsucc
    dsimp only at hsucc ⊢
    exact questionsMiss_entry forms cache fid now rand hlen hsucc

/-- C6: after any successful `getQuestions(formId)` call, a second call for
the same form id whose cache entry is still inside the 1-hour TTL window
returns exactly the same question list (order included) verbatim from the
cache, reports `cacheHit: true`, succeeds, and leaves the cache untouched —
the shuffle is applied only on the miss that populated the entry. -/
theorem claim6_cache_ttl_stable (forms : List Form) (cache : Cache)
    (p1 p2 : SessionPayload) (fid : String) (now1 now2 : Nat) (rand1 rand2 : Nat → Nat)
    (hfid : fid ≠ "") (hlen : cache.length ≤ MAX_CACHE_ENTRIES)
    (h1 : (questionsGET forms cache (some p1) (some fid) now1 rand1).1.success = true)
    (hTTL : entryFresh (questionsGET forms cache (some p1) (some fid) now1 rand1).2 fid now2 = true) :
    (questionsGET forms (questionsGET forms cache (some p1) (some fid) now1 rand1).2
        (some p2) (some fid) now2 rand2).1.questions =
      (questionsGET forms cache (some p1) (some fid) now1 rand1).1.questions ∧
    (questionsGET forms (questionsGET forms cache (some p1) (some fid) now1 rand1).2
        (some p2) (some fid) now2 rand2).1.cacheHit = some true ∧
    (questionsGET forms (questionsGET forms cache (some p1) (some fid) now1 rand1).2
        (some p2) (some fid) now2 rand2).1.success = true ∧
    (questionsGET forms (questionsGET forms cache (some p1) (some fid) now1 rand1).2
        (some p2) (some fid) now2 rand2).2 =
      (questionsGET forms cache (some p1) (some fid) now1 rand1).2 := by
  obtain ⟨e, he, heq⟩ := questionsGET_entry_after forms cache p1 fid now1 rand1 hfid hlen h1
  have hfr := entryFresh_spec _ fid now2 e he hTTL
  have hrun2 : questionsGET forms (questionsGET forms cache (some p1) (some fid) now1 rand1).2
      (some p2) (some fid) now2 rand2 =
      (⟨200, true, "", some fid, e.questions, some e.questions.length, some true⟩,
       (questionsGET forms cache (some p1) (some fid) now1 rand1).2) := by
    rw [questionsGET_query_eq forms _ p2 fid now2 rand2 hfid, he]
    dsimp only
    rw [if_pos hfr]
  exact ⟨by rw [hrun2]; exact heq, by rw [hrun2], by rw [hrun2], by rw [hrun2]⟩

/-- Witness for C6: two concrete calls, first filling the empty cache at
time 0 and the second hitting it at time 10. -/
theorem claim6_cache_ttl_stable_witness :
    ("110" : String) ≠ "" ∧
    ([] : Cache).length ≤ MAX_CACHE_ENTRIES ∧
    (questionsGET demoForms [] (some demoSession) (some "110") 0 (fun _ => 0)).1.success = true ∧
    entryFresh (questionsGET demoForms [] (some demoSession) (some "110") 0 (fun _ => 0)).2
      "110" 10 = true ∧
    ((questionsGET demoForms
        (questionsGET demoForms [] (some demoSession) (some "110") 0 (fun _ => 0)).2
        (some demoSession) (some "110") 10 (fun _ => 1)).1.questions =
      (questionsGET demoForms [] (some demoSession) (some "110") 0 (fun _ => 0)).1.questions ∧
     (questionsGET demoForms
        (questionsGET demoForms [] (some demoSession) (some "110") 0 (fun _ => 0)).2
        (some demoSession) (some "110") 10 (fun _ => 1)).1.cacheHit = some true ∧
     (questionsGET demoForms
        (questionsGET demoForms [] (some demoSession) (some "110") 0 (fun _ => 0)).2
        (some demoSession) (some "110") 10 (fun _ => 1)).1.success = true ∧
     (questionsGET demoForms
        (questionsGET demoForms [] (some demoSession) (some "110") 0 (fun _ => 0)).2
        (some demoSession) (some "110") 10 (fun _ => 1)).2 =
      (questionsGET demoForms [] (some demoSession) (some "110") 0 (fun _ => 0)).2) :=
  ⟨by decide, by decide, by decide, by decide,
   claim6_cache_ttl_stable demoForms [] demoSession demoSession "110" 0 10
     (fun _ => 0) (fun _ => 1) (by decide) (by decide) (by decide) (by decide)⟩

/-! ## Claim C7: form-id fallback from the credential -/

/-- C7 (refuted; the code reads a claim the token never carries): for every
session payload whose `formId` claim is absent — which holds for every token
the verify-roll handler signs, as the concrete issuance below shows — a
questions request without a `formId` query parameter answers 400
`Form ID is required` even though the credential embeds a course id. -/
theorem claim7_formid_fallback_dead :
    (∀ (forms : List Form) (cache : Cache) (p : SessionPayload) (now : Nat) (rand : Nat → Nat),
      (questionsGET forms cache (some { p with formId := none }) none now rand).1.status = 400) ∧
    (verifyRollPOST demoStudents (some "R100") (some "tok") (some c4Verify)
        (some "UA") 1000).1.sessionToken = some demoIssuedSession ∧
    demoIssuedSession.courseId = some 110 ∧
    demoIssuedSession.formId = none ∧
    (questionsGET demoForms [] (some demoIssuedSession) none 2000 (fun _ => 0)).1.status = 400 ∧
    (questionsGET demoForms [] (some demoIssuedSession) none 2000 (fun _ => 0)).1.message =
      "Form ID is required" :=
  ⟨fun _ _ _ _ _ => rfl, by decide, by decide, by decide, by decide, by decide⟩

/-! ## Claim C3: the `attempted` latch -/

lemma verifyRollPOST_db (students : StudentDB) (roll tokStr : Option String)
    (vtok : Option VerifyPayload) (ua : Option String) (now : Nat) :
    (verifyRollPOST students roll tokStr vtok ua now).2 = students ∨
    ∃ sid ph, (verifyRollPOST students roll tokStr vtok ua now).2 =
      updateStudent students sid
        (claimSessionUpdate ph (deviceFrom ua) now (now + fiveHoursMs)) := by
  unfold verifyRollPOST
  by_cases hb : (jsFalsy roll || jsFalsy tokStr : Bool) = true
  · rw [if_pos hb]; exact Or.inl rfl
  · rw [if_neg hb]
    cases vtok with
    | none => exact Or.inl rfl
    | some payload =>
      dsimp only
      by_cases hv : (!payload.verified : Bool) = true
      · rw [if_pos hv]; exact Or.inl rfl
      · rw [if_neg hv]
        cases hfind : findByRoll students (jsTrim (roll.getD "")) with
        | none => exact Or.inl rfl
        | some pr =>
          obtain ⟨sid, student⟩ := pr
          dsimp only
          by_cases hatt : student.attempted = true
          · rw [if_pos hatt]; exact Or.inl rfl
          · rw [if_neg hatt]
            by_cases hact : (student.sessionData.isActive &&
                decide (now < student.sessionData.expiresAt.getD 0) : Bool) = true
            · rw [if_pos hact]; exact Or.inl rfl
            · rw [if_neg hact]
              exact Or.inr ⟨sid, payload.phone, rfl⟩

lemma submitPOST_db (students : StudentDB) (forms : List Form)
    (tok : Option SessionPayload) (ans : Option JsObj) :
    (submitPOST students forms tok ans).2 = students ∨
    ∃ sid a m, (submitPOST students forms tok ans).2 =
      updateStudent students sid (submitUpdate a m) := by
  unfold submitPOST
  cases tok with
  | none => exact Or.inl rfl
  | some payload =>
    dsimp only
    cases ans with
    | none => exact Or.inl rfl
    | some a =>
      dsimp only
      cases hfind : findById students payload.studentId with
      | none => exact Or.inl rfl
      | some student =>
        dsimp only
        by_cases hatt : student.attempted = true
        · rw [if_pos hatt]; exact Or.inl rfl
        · rw [if_neg hatt]
          cases hform : resolveForm forms payload.courseId with
          | none => exact Or.inl rfl
          | some form =>
            exact Or.inr ⟨payload.studentId, a, calculateMarks form.questions a, rfl⟩

/-- C3: the `attempted` field is a one-way latch across every server
operation (OTP send, OTP verify, roll verification, question fetch, submit):
no operation turns a student's `attempted` from `true` back to `false`, and
any operation that changes it sets it to `true`. -/
theorem claim3_attempted_latch :
    ∀ (st : ServerState) (op : ServerOp) (id : Nat) (s s' : StudentRec),
      findById st.students id = some s →
      findById (applyOp st op).students id = some s' →
      (s.attempted = true → s'.attempted = true) ∧
      (s'.attempted = s.attempted ∨ s'.attempted = true) := by
  intro st op id s s' h h'
  have fromEq : ∀ t : StudentRec, s' = t → t.attempted = s.attempted →
      (s.attempted = true → s'.attempted = true) ∧
      (s'.attempted = s.attempted ∨ s'.attempted = true) := by
    intro t ht hatt
    subst ht
    exact ⟨fun hh => hatt.trans hh, Or.inl hatt⟩
  cases op with
  | sendOtp xff phone cc now newOtp newId =>
    have : (applyOp st (.sendOtp xff phone cc now newOtp newId)).students = st.students := rfl
    rw [this, h] at h'
    exact fromEq s (Option.some.inj h').symm rfl
  | verifyOtp phone otp now =>
    have : (applyOp st (.verifyOtp phone otp now)).students = st.students := rfl
    rw [this, h] at h'
    exact fromEq s (Option.some.inj h').symm rfl
  | getQuestions tok q now rand =>
    have : (applyOp st (.getQuestions tok q now rand)).students = st.students := rfl
    rw [this, h] at h'
    exact fromEq s (Option.some.inj h').symm rfl
  | verifyRoll roll tokStr vtok ua now =>
    have happ : (applyOp st (.verifyRoll roll tokStr vtok ua now)).students =
        (verifyRollPOST st.students roll tokStr vtok ua now).2 := rfl
    rw [happ] at h'
    rcases verifyRollPOST_db st.students roll tokStr vtok ua now with hdb | ⟨sid, ph, hdb⟩
    · rw [hdb, h] at h'
      exact fromEq s (Option.some.inj h').symm rfl
    · rw [hdb] at h'
      by_cases hid : id = sid
      · subst hid
        rw [findById_updateStudent_self, h, Option.map_some'] at h'
        exact fromEq _ (Option.some.inj h').symm rfl
      · rw [findById_updateStudent_other _ _ _ _ hid, h] at h'
        exact fromEq s (Option.some.inj h').symm rfl
  | submit tok ans =>
    have happ : (applyOp st (.submit tok ans)).students =
        (submitPOST st.students st.forms tok ans).2 := rfl
    rw [happ] at h'
    rcases submitPOST_db st.students st.forms tok ans with hdb | ⟨sid, a, m, hdb⟩
    · rw [hdb, h] at h'
      exact fromEq s (Option.some.inj h').symm rfl
    · rw [hdb] at h'
      by_cases hid : id = sid
      · subst hid
        rw [findById_updateStudent_self, h, Option.map_some'] at h'
        have hs' : s' = submitUpdate a m s := (Option.some.inj h').symm
        subst hs'
        exact ⟨fun _ => rfl, Or.inr rfl⟩
      · rw [findById_updateStudent_other _ _ _ _ hid, h] at h'
        exact fromEq s (Option.some.inj h').symm rfl

/-- Witness for C3: an already-attempted student stays attempted across a
concrete submit request. -/
theorem claim3_attempted_latch_witness :
    findById (ServerState.mk [(7, { demoStudent with attempted := true })] [] [] [] demoForms).students 7 =
      some { demoStudent with attempted := true } ∧
    findById (applyOp (ServerState.mk [(7, { demoStudent with attempted := true })] [] [] [] demoForms)
        (ServerOp.submit (some demoSession) (some c1Answers1))).students 7 =
      some { demoStudent with attempted := true } ∧
    (({ demoStudent with attempted := true } : StudentRec).attempted = true →
      ({ demoStudent with attempted := true } : StudentRec).attempted = true) ∧
    (({ demoStudent with attempted := true } : StudentRec).attempted =
        ({ demoStudent with attempted := true } : StudentRec).attempted ∨
      ({ demoStudent with attempted := true } : StudentRec).attempted = true) :=
  ⟨by decide, by decide,
   claim3_attempted_latch
     (ServerState.mk [(7, { demoStudent with attempted := true })] [] [] [] demoForms)
     (ServerOp.submit (some demoSession) (some c1Answers1)) 7
     { demoStudent with attempted := true } { demoStudent with attempted := true }
     (by decide) (by decide)⟩
